import Mathlib

/-
Verification of the credential-provider module
mlflow/legacy_databricks_cli/configure/provider.py.

The module resolves Databricks credentials from an ordered chain of
sources (Spark task context, process environment, an INI-style profile
file) and exposes a process-wide override slot.

Modelling conventions:
  - Python optional strings become Option String; Python truthiness of an
    optional string value is pyTruthy (none and the empty string are falsy).
  - The stdlib ConfigParser object the source instantiates (a plain
    ConfigParser(), hence with BasicInterpolation and the default
    optionxform) becomes RawConfig: an association list for the DEFAULT
    section plus an association list of named sections.  Its operations
    (get, set, remove_option, has_section, has_option, add_section) are
    translated from CPython configparser semantics:
      - set and remove_option raise NoSectionError on a missing named
        section; get falls back from a named section to the DEFAULT
        section through the chain map of _unify_values;
      - optionxform lowercases the option key on set, remove_option,
        has_option and get, but not in the raw _sections membership
        check of this module's _get_option_if_exists; it is modelled as
        mapping Char.toLower over the characters, which agrees with
        str.lower on ASCII (every key this module itself passes is
        ASCII);
      - BasicInterpolation.before_set rejects (ValueError) any truthy
        value that still contains a percent sign after removing the
        escaped %% pairs and the %(...)s references;
      - BasicInterpolation.before_get runs _interpolate_some on the
        stored value: %% collapses to %, %(name)s is replaced by the
        looked-up value of the lowercased name in the section/DEFAULT
        chain map (recursively, up to MAX_INTERPOLATION_DEPTH = 10
        levels, then InterpolationDepthError), any other use of % raises
        InterpolationSyntaxError, and a missing referenced name raises
        InterpolationMissingOptionError.
    The character scanners (stripKeyRefsAux, interpLoopN) carry a fuel
    argument that starts at the length of the scanned list; every step
    consumes at least one character per fuel unit, so the fuel-exhausted
    fallback is never reached and the functions stay structurally
    recursive.  interpN counts the remaining interpolation depth.
  - Serialisation to the INI file and parsing it back is the contract of
    the external stdlib format reader for the flat representation, so a
    FileStat stores the RawConfig as its content; the parser never
    stores the DEFAULT key in _sections (section headers named DEFAULT
    feed the defaults mapping, add_section rejects the name).
  - The filesystem state at the config path is Option FileStat (none when
    the file is absent); st_mode of a regular file is 0o100000 plus its
    permission bits.
-/

set_option autoImplicit false

namespace DbCfg

/-- Python truthiness of an optional string: None and the empty string are
falsy, every other string is truthy. -/
def pyTruthy : Option String → Bool
  | none => false
  | some s => !(s == "")

/-- Lookup of the first binding of a key in an association list (Python
dict read). -/
def alookup {α : Type} : List (String × α) → String → Option α
  | [], _ => none
  | (k, v) :: rest, key => if k = key then some v else alookup rest key

/-- Update of the first binding of a key, appending when absent (Python
dict write). -/
def aset {α : Type} : List (String × α) → String → α → List (String × α)
  | [], key, v => [(key, v)]
  | (k, w) :: rest, key, v =>
    if k = key then (k, v) :: rest else (k, w) :: aset rest key v

/-- Removal of every binding of a key (Python dict del). -/
def aremove {α : Type} : List (String × α) → String → List (String × α)
  | [], _ => []
  | (k, w) :: rest, key =>
    if k = key then aremove rest key else (k, w) :: aremove rest key

theorem alookup_aset_self {α : Type} (l : List (String × α)) (k : String) (v : α) :
    alookup (aset l k v) k = some v := by
  induction l with
  | nil => simp [aset, alookup]
  | cons hd tl ih =>
    obtain ⟨k0, w⟩ := hd
    by_cases hk : k0 = k
    · simp [aset, hk, alookup]
    · simp [aset, hk, alookup, ih]

theorem alookup_aset_ne {α : Type} (l : List (String × α)) (k key : String) (v : α)
    (h : key ≠ k) : alookup (aset l k v) key = alookup l key := by
  induction l with
  | nil => simp [aset, alookup, Ne.symm h]
  | cons hd tl ih =>
    obtain ⟨k0, w⟩ := hd
    by_cases hk : k0 = k
    · subst hk
      simp [aset, alookup, Ne.symm h]
    · simp only [aset, if_neg hk, alookup]
      by_cases hk2 : k0 = key
      · simp [hk2]
      · simp [hk2, ih]

theorem alookup_aremove_self {α : Type} (l : List (String × α)) (k : String) :
    alookup (aremove l k) k = none := by
  induction l with
  | nil => simp [aremove, alookup]
  | cons hd tl ih =>
    obtain ⟨k0, w⟩ := hd
    by_cases hk : k0 = k
    · simp [aremove, hk, ih]
    · simp [aremove, hk, alookup, ih]

theorem alookup_aremove_ne {α : Type} (l : List (String × α)) (k key : String)
    (h : key ≠ k) : alookup (aremove l k) key = alookup l key := by
  induction l with
  | nil => simp [aremove]
  | cons hd tl ih =>
    obtain ⟨k0, w⟩ := hd
    by_cases hk : k0 = k
    · subst hk
      simp [aremove, alookup, Ne.symm h, ih]
    · simp only [aremove, if_neg hk, alookup]
      by_cases hk2 : k0 = key
      · simp [hk2]
      · simp [hk2, ih]

theorem alookup_append_absent {α : Type} (l : List (String × α)) (k : String) (v : α)
    (h : alookup l k = none) : alookup (l ++ [(k, v)]) k = some v := by
  induction l with
  | nil => simp [alookup]
  | cons hd tl ih =>
    obtain ⟨k0, w⟩ := hd
    by_cases hk : k0 = k
    · simp [alookup, hk] at h
    · simp only [alookup, if_neg hk] at h
      simp [alookup, hk, ih h]

/-- Option key constants of the module (HOST, USERNAME, PASSWORD, TOKEN,
REFRESH_TOKEN, INSECURE, JOBS_API_VERSION in the source). -/
def HOST : String := "host"

def USERNAME : String := "username"

def PASSWORD : String := "password"

def TOKEN : String := "token"

def REFRESH_TOKEN : String := "refresh_token"

def INSECURE : String := "insecure"

def JOBS_API_VERSION : String := "jobs-api-version"

def DEFAULT_SECTION : String := "DEFAULT"

/-- DatabricksConfig value object: seven optional string fields. -/
structure DatabricksConfig where
  host : Option String
  username : Option String
  password : Option String
  token : Option String
  refresh_token : Option String
  insecure : Option String
  jobs_api_version : Option String
deriving Repr, DecidableEq

/-- Constructor from_token: username and password left unset. -/
def DatabricksConfig.from_token (host token refresh_token insecure jobs_api_version : Option String) : DatabricksConfig :=
  { host := host, username := none, password := none, token := token,
    refresh_token := refresh_token, insecure := insecure,
    jobs_api_version := jobs_api_version }

/-- Constructor from_password: token and refresh_token left unset. -/
def DatabricksConfig.from_password (host username password insecure jobs_api_version : Option String) : DatabricksConfig :=
  { host := host, username := username, password := password, token := none,
    refresh_token := none, insecure := insecure,
    jobs_api_version := jobs_api_version }

/-- Constructor empty: all fields unset. -/
def DatabricksConfig.empty : DatabricksConfig :=
  { host := none, username := none, password := none, token := none,
    refresh_token := none, insecure := none, jobs_api_version := none }

/-- Validity with a token: host is not None and token is not None. -/
def DatabricksConfig.is_valid_with_token (c : DatabricksConfig) : Bool :=
  c.host.isSome && c.token.isSome

/-- Validity with a password: host, username and password are all not None. -/
def DatabricksConfig.is_valid_with_password (c : DatabricksConfig) : Bool :=
  c.host.isSome && c.username.isSome && c.password.isSome

/-- Overall validity: token-based or password-based. -/
def DatabricksConfig.is_valid (c : DatabricksConfig) : Bool :=
  c.is_valid_with_token || c.is_valid_with_password

/-- C1: for every DatabricksConfig record, is_valid holds iff
is_valid_with_token or is_valid_with_password holds; is_valid_with_token
holds iff host and token are both present; is_valid_with_password holds
iff host, username and password are all present. -/
theorem C1_validity_predicates (c : DatabricksConfig) :
    (c.is_valid = (c.is_valid_with_token || c.is_valid_with_password)) ∧
    (c.is_valid_with_token = true ↔ (c.host ≠ none ∧ c.token ≠ none)) ∧
    (c.is_valid_with_password = true ↔
      (c.host ≠ none ∧ c.username ≠ none ∧ c.password ≠ none)) := by
  refine ⟨rfl, ?_, ?_⟩
  · simp [DatabricksConfig.is_valid_with_token, Option.isSome_iff_ne_none]
  · simp [DatabricksConfig.is_valid_with_password, Option.isSome_iff_ne_none,
      and_assoc]

/-- The parser optionxform: str.lower on the option key, modelled as
Char.toLower over the characters (identical to str.lower on ASCII; all
keys this module passes are ASCII). -/
def optionxform (s : String) : String :=
  String.mk (s.data.map Char.toLower)

/-- Splits a character list at the first closing parenthesis: the
characters before it and the characters after it.  Mirrors what the
anchored regular expression of the interpolation key reference consumes
between the opening parenthesis and the closing one. -/
def takeUntilParen : List Char → Option (List Char × List Char)
  | [] => none
  | c :: rest =>
    if c = ')' then some ([], rest)
    else
      match takeUntilParen rest with
      | some (content, rem) => some (c :: content, rem)
      | none => none

/-- Phase one of BasicInterpolation.before_set: value.replace of the
escaped double percent with the empty string, scanning left to right. -/
def stripDoublePercent : List Char → List Char
  | [] => []
  | c :: rest =>
    if c = '%' then
      match rest with
      | [] => [c]
      | c2 :: rest2 =>
        if c2 = '%' then stripDoublePercent rest2
        else c :: stripDoublePercent (c2 :: rest2)
    else c :: stripDoublePercent rest

/-- Phase two of BasicInterpolation.before_set: removal of every
anchored %(...)s key reference, as the substitution by the empty string
does, advancing one character when no reference starts at the current
position.  The fuel starts at the list length; every step consumes at
least one character per fuel unit, so the fuel-exhausted fallback is
never reached. -/
def stripKeyRefsAux : Nat → List Char → List Char
  | 0, l => l
  | _ + 1, [] => []
  | f + 1, c :: rest =>
    if c = '%' then
      match rest with
      | '(' :: rest2 =>
        match takeUntilParen rest2 with
        | some (content, 's' :: rem2) =>
          if content = [] then c :: stripKeyRefsAux f rest
          else stripKeyRefsAux f rem2
        | _ => c :: stripKeyRefsAux f rest
      | _ => c :: stripKeyRefsAux f rest
    else c :: stripKeyRefsAux f rest

def stripKeyRefs (l : List Char) : List Char :=
  stripKeyRefsAux l.length l

/-- BasicInterpolation.before_set acceptance: after removing the escaped
%% pairs and the %(...)s references, no percent sign may remain
(otherwise ConfigParser.set raises ValueError). -/
def before_set_ok (value : String) : Bool :=
  !(stripKeyRefs (stripDoublePercent value.data)).contains '%'

/-- Errors raised by configparser operations. -/
inductive CPError where
  | noSection (s : String)
  | duplicateSection (s : String)
  | invalidSectionName (s : String)
  | noOption (s o : String)
  | interpolationSyntaxError (s o : String)
  | interpolationMissingOption (s o var : String)
  | interpolationDepthError (s o : String)
  | invalidInterpolationValue (value : String)
deriving Repr, DecidableEq

/-- One level of BasicInterpolation._interpolate_some: scans the value,
emitting plain characters, collapsing %% to %, replacing an anchored
%(name)s reference by the looked-up value of the lowercased name (the
deeper callback handles a referenced value that itself contains %), and
raising InterpolationSyntaxError on any other use of %.  The fuel starts
at the list length; every step consumes at least one character per fuel
unit, so the fuel-exhausted fallback is never reached. -/
def interpLoopN (lookup : String → Option String) (sect opt : String)
    (deeper : List Char → Except CPError (List Char)) :
    Nat → List Char → Except CPError (List Char)
  | _, [] => .ok []
  | 0, _ :: _ => .ok []
  | f + 1, c :: rest =>
    if c = '%' then
      match rest with
      | [] => .error (.interpolationSyntaxError sect opt)
      | c2 :: rest2 =>
        if c2 = '%' then
          match interpLoopN lookup sect opt deeper f rest2 with
          | .error e => .error e
          | .ok acc => .ok ('%' :: acc)
        else if c2 = '(' then
          match takeUntilParen rest2 with
          | some (content, 's' :: rem2) =>
            if content = [] then .error (.interpolationSyntaxError sect opt)
            else
              match lookup (optionxform (String.mk content)) with
              | none =>
                .error (.interpolationMissingOption sect opt
                  (optionxform (String.mk content)))
              | some v =>
                if v.data.contains '%' then
                  match deeper v.data with
                  | .error e => .error e
                  | .ok accv =>
                    match interpLoopN lookup sect opt deeper f rem2 with
                    | .error e => .error e
                    | .ok accr => .ok (accv ++ accr)
                else
                  match interpLoopN lookup sect opt deeper f rem2 with
                  | .error e => .error e
                  | .ok accr => .ok (v.data ++ accr)
          | _ => .error (.interpolationSyntaxError sect opt)
        else .error (.interpolationSyntaxError sect opt)
    else
      match interpLoopN lookup sect opt deeper f rest with
      | .error e => .error e
      | .ok acc => .ok (c :: acc)

/-- Depth-indexed _interpolate_some: the index counts the remaining
interpolation levels (MAX_INTERPOLATION_DEPTH = 10 at the top); entering
a level with none left raises InterpolationDepthError, exactly the
depth-greater-than-maximum entry check. -/
def interpN (lookup : String → Option String) (sect opt : String) :
    Nat → List Char → Except CPError (List Char)
  | 0, _ => .error (.interpolationDepthError sect opt)
  | n + 1, rest =>
    interpLoopN lookup sect opt (fun v => interpN lookup sect opt n v)
      rest.length rest

/-- BasicInterpolation.before_get: interpolate the stored value over the
chain map, with the full depth budget. -/
def before_get (lookup : String → Option String) (sect opt value : String) :
    Except CPError String :=
  match interpN lookup sect opt 10 value.data with
  | .error e => .error e
  | .ok l => .ok (String.mk l)

/-- In-memory ConfigParser state: the DEFAULT section mapping plus the
named sections mapping (the _sections attribute, which never holds the
DEFAULT key). -/
structure RawConfig where
  defaults : List (String × String)
  sections : List (String × List (String × String))
deriving Repr, DecidableEq

/-- The chain map of _unify_values for a named section: the section
entries shadow the DEFAULT entries. -/
def chainLookup (sect defaults : List (String × String)) (k : String) : Option String :=
  match alookup sect k with
  | some v => some v
  | none => alookup defaults k

/-- ConfigParser.has_section: membership in the named sections; the
DEFAULT section is never reported. -/
def RawConfig.has_section (rc : RawConfig) (s : String) : Bool :=
  (alookup rc.sections s).isSome

/-- ConfigParser.add_section: rejects the DEFAULT name, rejects a
duplicate, otherwise appends an empty section. -/
def RawConfig.add_section (rc : RawConfig) (s : String) : Except CPError RawConfig :=
  if s = DEFAULT_SECTION then .error (.invalidSectionName s)
  else if rc.has_section s then .error (.duplicateSection s)
  else .ok { rc with sections := rc.sections ++ [(s, [])] }

/-- ConfigParser.has_option: the empty name and the DEFAULT name address
the DEFAULT section directly; a missing named section raises
NoSectionError; otherwise the lowercased option may come from the
section or from the DEFAULT fallback. -/
def RawConfig.has_option (rc : RawConfig) (s o : String) : Except CPError Bool :=
  if s = "" ∨ s = DEFAULT_SECTION then
    .ok (alookup rc.defaults (optionxform o)).isSome
  else
    match alookup rc.sections s with
    | none => .error (.noSection s)
    | some sect =>
      .ok ((alookup sect (optionxform o)).isSome ||
        (alookup rc.defaults (optionxform o)).isSome)

/-- ConfigParser.get: resolves the chain map of _unify_values (the
DEFAULT name reads the defaults only, since _sections never holds the
DEFAULT key; a missing named section raises NoSectionError), looks up
the lowercased option (NoOptionError when absent), then runs the stored
value through BasicInterpolation.before_get over the same chain map. -/
def RawConfig.get (rc : RawConfig) (s o : String) : Except CPError String :=
  if s = DEFAULT_SECTION then
    match alookup rc.defaults (optionxform o) with
    | none => .error (.noOption s o)
    | some v => before_get (fun k => alookup rc.defaults k) s (optionxform o) v
  else
    match alookup rc.sections s with
    | none => .error (.noSection s)
    | some sect =>
      match chainLookup sect rc.defaults (optionxform o) with
      | none => .error (.noOption s o)
      | some v => before_get (chainLookup sect rc.defaults) s (optionxform o) v

/-- ConfigParser.set: a truthy value first passes
BasicInterpolation.before_set (ValueError on invalid interpolation
syntax); the empty name and the DEFAULT name write the DEFAULT section;
a missing named section raises NoSectionError; the key is stored
lowercased. -/
def RawConfig.set (rc : RawConfig) (s o v : String) : Except CPError RawConfig :=
  if !(v == "") && !(before_set_ok v) then .error (.invalidInterpolationValue v)
  else if s = "" ∨ s = DEFAULT_SECTION then
    .ok { rc with defaults := aset rc.defaults (optionxform o) v }
  else
    match alookup rc.sections s with
    | none => .error (.noSection s)
    | some sect =>
      .ok { rc with sections := aset rc.sections s (aset sect (optionxform o) v) }

/-- ConfigParser.remove_option: the empty name and the DEFAULT name
address the DEFAULT section; a missing named section raises
NoSectionError; removes the lowercased key, returns whether it existed,
and removing an absent option is not an error. -/
def RawConfig.remove_option (rc : RawConfig) (s o : String) : Except CPError (RawConfig × Bool) :=
  if s = "" ∨ s = DEFAULT_SECTION then
    .ok ({ rc with defaults := aremove rc.defaults (optionxform o) },
         (alookup rc.defaults (optionxform o)).isSome)
  else
    match alookup rc.sections s with
    | none => .error (.noSection s)
    | some sect =>
      .ok ({ rc with sections := aset rc.sections s (aremove sect (optionxform o)) },
           (alookup sect (optionxform o)).isSome)

/-- State of the config file when it exists: permission bits and content.
The content holds the representation the external format reader
serialises and parses back. -/
structure FileStat where
  perm : Nat
  content : RawConfig
deriving Repr, DecidableEq

/-- st_mode of a regular file: the regular-file type bits plus the
permission bits. -/
def FileStat.st_mode (f : FileStat) : Nat :=
  0o100000 + f.perm

/-- Translation of _fetch_from_fs: ConfigParser.read of an absent file
silently yields an empty parser. -/
def fetch_from_fs : Option FileStat → RawConfig
  | none => { defaults := [], sections := [] }
  | some f => f.content

/-- Translation of _create_section_if_absent. -/
def create_section_if_absent (rc : RawConfig) (profile : String) : Except CPError RawConfig :=
  if !rc.has_section profile && profile ≠ DEFAULT_SECTION then
    rc.add_section profile
  else .ok rc

/-- Translation of _get_option_if_exists.  For the DEFAULT section it
checks has_option (lowercased membership in the DEFAULT mapping) before
get; for a named section it checks membership of the raw, un-lowercased
key in the raw _sections entry (empty when the section is absent) before
get, so the DEFAULT fallback of get is never reached; errors raised by
get propagate. -/
def get_option_if_exists (rc : RawConfig) (profile opt : String) : Except CPError (Option String) :=
  if profile = DEFAULT_SECTION then
    if (alookup rc.defaults (optionxform opt)).isSome then (rc.get profile opt).map some
    else .ok none
  else if (alookup ((alookup rc.sections profile).getD []) opt).isNone then .ok none
  else (rc.get profile opt).map some

/-- Translation of _set_option (set_option is a reserved word in Lean,
hence the shortened name): a truthy value is stored with
ConfigParser.set, a falsy value is removed with
ConfigParser.remove_option. -/
def set_opt (rc : RawConfig) (profile opt : String) (value : Option String) : Except CPError RawConfig :=
  if pyTruthy value then rc.set profile opt (value.getD "")
  else (rc.remove_option profile opt).map Prod.fst

/-- Translation of _overwrite_config: create the file with mode 0o600
when absent, chmod to 0o600 when st_mode differs from 0o100600, then
overwrite the content with the serialised representation. -/
def overwrite_config (fs : Option FileStat) (rc : RawConfig) : FileStat :=
  let f0 : FileStat :=
    match fs with
    | none => { perm := 0o600, content := { defaults := [], sections := [] } }
    | some f => f
  let f1 : FileStat := if f0.st_mode == 0o100600 then f0 else { f0 with perm := 0o600 }
  { f1 with content := rc }

/-- C4: for every prior state of the config file (absent, or present with
arbitrary permission bits) and every representation, after
_overwrite_config the file exists and its permission bits are exactly
owner read/write (0o600). -/
theorem C4_persist_permissions (fs : Option FileStat) (rc : RawConfig) :
    ∃ st : FileStat, overwrite_config fs rc = st ∧ st.perm = 0o600 := by
  refine ⟨overwrite_config fs rc, rfl, ?_⟩
  cases fs with
  | none => simp [overwrite_config, FileStat.st_mode]
  | some f =>
    simp only [overwrite_config, FileStat.st_mode]
    by_cases h : 0o100000 + f.perm = 0o100600
    · have hp : f.perm = 0o600 := by omega
      simp [h, hp]
    · simp [h]

/-- Conversion of the profile argument, which Python treats as
(profile if profile else DEFAULT_SECTION): None and the empty string fall
back to the DEFAULT section name. -/
def defaultizeProfile : Option String → String
  | none => DEFAULT_SECTION
  | some s => if s = "" then DEFAULT_SECTION else s

/-- Translation of update_and_persist_config: resolve the profile name,
read the file, ensure the section, write all seven fields with
_set_option, then persist with _overwrite_config.  Each ConfigParser call
can raise, hence the Except-valued nested matches mirroring the
sequential Python statements. -/
def update_and_persist_config (profile : Option String) (cfg : DatabricksConfig) (fs : Option FileStat) : Except CPError FileStat :=
  let p := defaultizeProfile profile
  let rc0 := fetch_from_fs fs
  match create_section_if_absent rc0 p with
  | .error e => .error e
  | .ok rc1 =>
  match set_opt rc1 p HOST cfg.host with
  | .error e => .error e
  | .ok rc2 =>
  match set_opt rc2 p USERNAME cfg.username with
  | .error e => .error e
  | .ok rc3 =>
  match set_opt rc3 p PASSWORD cfg.password with
  | .error e => .error e
  | .ok rc4 =>
  match set_opt rc4 p TOKEN cfg.token with
  | .error e => .error e
  | .ok rc5 =>
  match set_opt rc5 p REFRESH_TOKEN cfg.refresh_token with
  | .error e => .error e
  | .ok rc6 =>
  match set_opt rc6 p INSECURE cfg.insecure with
  | .error e => .error e
  | .ok rc7 =>
  match set_opt rc7 p JOBS_API_VERSION cfg.jobs_api_version with
  | .error e => .error e
  | .ok rc8 => .ok (overwrite_config fs rc8)

/-- Translation of SparkTaskContextConfigProvider.get_config: the task
context is an optional local-property map (None when pyspark is absent or
TaskContext.get() returns None); builds a token-based record from the
spark.databricks properties and returns it only when valid. -/
def SparkTaskContextConfigProvider.get_config (ctx : Option (List (String × String))) : Option DatabricksConfig :=
  match ctx with
  | none => none
  | some props =>
    let cfg := DatabricksConfig.from_token
      (alookup props "spark.databricks.api.url")
      (alookup props "spark.databricks.token")
      none
      (alookup props "spark.databricks.ignoreTls")
      none
    if cfg.is_valid then some cfg else none

/-- Translation of EnvironmentVariableConfigProvider.get_config: reads
the seven DATABRICKS_ environment variables and returns the record only
when valid. -/
def EnvironmentVariableConfigProvider.get_config (env : List (String × String)) : Option DatabricksConfig :=
  let cfg : DatabricksConfig :=
    { host := alookup env "DATABRICKS_HOST",
      username := alookup env "DATABRICKS_USERNAME",
      password := alookup env "DATABRICKS_PASSWORD",
      token := alookup env "DATABRICKS_TOKEN",
      refresh_token := alookup env "DATABRICKS_REFRESH_TOKEN",
      insecure := alookup env "DATABRICKS_INSECURE",
      jobs_api_version := alookup env "DATABRICKS_JOBS_API_VERSION" }
  if cfg.is_valid then some cfg else none

/-- Field reads of ProfileConfigProvider.get_config: the seven
sequential _get_option_if_exists calls, each of which can raise. -/
def ProfileConfigProvider.readConfig (profile : String) (fs : Option FileStat) : Except CPError DatabricksConfig :=
  let rc := fetch_from_fs fs
  match get_option_if_exists rc profile HOST with
  | .error e => .error e
  | .ok host =>
  match get_option_if_exists rc profile USERNAME with
  | .error e => .error e
  | .ok username =>
  match get_option_if_exists rc profile PASSWORD with
  | .error e => .error e
  | .ok password =>
  match get_option_if_exists rc profile TOKEN with
  | .error e => .error e
  | .ok token =>
  match get_option_if_exists rc profile REFRESH_TOKEN with
  | .error e => .error e
  | .ok refresh_token =>
  match get_option_if_exists rc profile INSECURE with
  | .error e => .error e
  | .ok insecure =>
  match get_option_if_exists rc profile JOBS_API_VERSION with
  | .error e => .error e
  | .ok jobs_api_version =>
    .ok { host := host, username := username, password := password,
          token := token, refresh_token := refresh_token,
          insecure := insecure, jobs_api_version := jobs_api_version }

/-- Translation of ProfileConfigProvider.get_config: reads the seven keys
of the profile (store errors propagate) and returns the record only when
valid. -/
def ProfileConfigProvider.get_config (profile : String) (fs : Option FileStat) : Except CPError (Option DatabricksConfig) :=
  match ProfileConfigProvider.readConfig profile fs with
  | .error e => .error e
  | .ok cfg => .ok (if cfg.is_valid then some cfg else none)

/-- External state a resolution call reads: the optional Spark task
context property map, the process environment, and the config file
state. -/
structure World where
  taskContext : Option (List (String × String))
  env : List (String × String)
  fs : Option FileStat
deriving Repr, DecidableEq

/-- Tail of the DefaultConfigProvider loop from its last provider: the
profile record when present and valid, else none; store errors
propagate. -/
def DefaultConfigProvider.tryProfile (fs : Option FileStat) : Except CPError (Option DatabricksConfig) :=
  match ProfileConfigProvider.get_config DEFAULT_SECTION fs with
  | .error e => .error e
  | .ok none => .ok none
  | .ok (some c) => if c.is_valid then .ok (some c) else .ok none

/-- Tail of the DefaultConfigProvider loop from its second provider. -/
def DefaultConfigProvider.tryEnv (w : World) : Except CPError (Option DatabricksConfig) :=
  match EnvironmentVariableConfigProvider.get_config w.env with
  | none => DefaultConfigProvider.tryProfile w.fs
  | some c => if c.is_valid then .ok (some c) else DefaultConfigProvider.tryProfile w.fs

/-- Translation of DefaultConfigProvider.get_config: the loop over the
fixed chain SparkTaskContextConfigProvider,
EnvironmentVariableConfigProvider, ProfileConfigProvider (default
profile), unrolled; a later provider runs only when every earlier one
yields no valid record, and the loop re-checks is_valid on each
record. -/
def DefaultConfigProvider.get_config (w : World) : Except CPError (Option DatabricksConfig) :=
  match SparkTaskContextConfigProvider.get_config w.taskContext with
  | none => DefaultConfigProvider.tryEnv w
  | some c => if c.is_valid then .ok (some c) else DefaultConfigProvider.tryEnv w

/-- Installed override provider: its get_config returns a fixed result;
the name stands for the string interpolated into the error message. -/
structure CustomProvider where
  name : String
  result : Option DatabricksConfig
deriving Repr, DecidableEq

/-- Errors raised by the module-level get_config
(InvalidConfigurationError variants, plus propagated store errors). -/
inductive ConfigError where
  | notConfigured (profile : Option String)
  | customProviderReturnedNothing (providerName : String)
  | storeError (e : CPError)
deriving Repr, DecidableEq

/-- Translation of the module-level get_config.  The slot is the
_config_provider global: the Python code branches on its truthiness, so
none here covers both None and any falsy installed value, and a truthy
installed value is a provider instance (the only truthy values
set_config_provider accepts). -/
def get_config (slot : Option CustomProvider) (w : World) : Except ConfigError DatabricksConfig :=
  match slot with
  | some p =>
    match p.result with
    | some c => .ok c
    | none => .error (.customProviderReturnedNothing p.name)
  | none =>
    match DefaultConfigProvider.get_config w with
    | .error e => .error (.storeError e)
    | .ok (some c) => .ok c
    | .ok none => .error (.notConfigured none)

/-- Helper for the tail of get_config_for_profile: the profile record
when present, else the empty record; store errors propagate. -/
def profileOrEmpty (p : String) (fs : Option FileStat) : Except CPError DatabricksConfig :=
  match ProfileConfigProvider.get_config p fs with
  | .error e => .error e
  | .ok (some c) => .ok c
  | .ok none => .ok DatabricksConfig.empty

/-- Translation of get_config_for_profile: environment record first when
valid, else the profile record, else the empty record; the only errors
are store errors propagated from the profile read. -/
def get_config_for_profile (profile : Option String) (env : List (String × String)) (fs : Option FileStat) : Except CPError DatabricksConfig :=
  let p := defaultizeProfile profile
  match EnvironmentVariableConfigProvider.get_config env with
  | some c => if c.is_valid then .ok c else profileOrEmpty p fs
  | none => profileOrEmpty p fs

/-- Universe of Python values that can be passed to set_config_provider:
None, a provider instance, or scalar non-provider values. -/
inductive PyValue where
  | pyNone
  | pyProvider (p : CustomProvider)
  | pyInt (n : Int)
  | pyStr (s : String)
  | pyBool (b : Bool)
deriving Repr, DecidableEq

/-- Python truthiness of such a value; provider instances are truthy. -/
def PyValue.truthy : PyValue → Bool
  | .pyNone => false
  | .pyProvider _ => true
  | .pyInt n => decide (n ≠ 0)
  | .pyStr s => !(s == "")
  | .pyBool b => b

/-- isinstance check against DatabricksConfigProvider. -/
def PyValue.isinstanceOfProvider : PyValue → Bool
  | .pyProvider _ => true
  | _ => false

/-- Error raised by set_config_provider; it formats the current global
_config_provider (not the argument) into the message. -/
inductive PySetError where
  | mustBeInstance (current : PyValue)
deriving Repr, DecidableEq

/-- Translation of set_config_provider: raise when the argument is truthy
and not a DatabricksConfigProvider instance, else return the value to
install in the slot. -/
def set_config_provider (slot arg : PyValue) : Except PySetError PyValue :=
  if arg.truthy && !arg.isinstanceOfProvider then .error (.mustBeInstance slot)
  else .ok arg

/-- Slot contents after a set_config_provider call: the raise aborts the
assignment, so the slot is unchanged on error. -/
def slotAfterSet (slot arg : PyValue) : PyValue :=
  match set_config_provider slot arg with
  | .ok v => v
  | .error _ => slot

/-- Translation of get_config_provider: returns the slot. -/
def get_config_provider (slot : PyValue) : PyValue :=
  slot

/-- Percent-free strings: the values BasicInterpolation stores and reads
back unchanged. -/
def noPercentS (s : String) : Bool :=
  !(s.data.contains '%')

/-- Percent-freeness of an optional field value (unset fields are
trivially clean). -/
def fieldClean : Option String → Bool
  | none => true
  | some s => noPercentS s

/-- Percent-freeness of every field of a record. -/
def recordClean (c : DatabricksConfig) : Bool :=
  fieldClean c.host && fieldClean c.username && fieldClean c.password &&
    fieldClean c.token && fieldClean c.refresh_token && fieldClean c.insecure &&
    fieldClean c.jobs_api_version

theorem stripDoublePercent_id (l : List Char) (h : l.contains '%' = false) :
    stripDoublePercent l = l := by
  induction l with
  | nil => rfl
  | cons c rest ih =>
    rw [List.contains_cons, Bool.or_eq_false_iff] at h
    have hc : ¬c = '%' := by
      intro hh
      subst hh
      simp at h
    unfold stripDoublePercent
    simp [hc, ih h.2]

theorem stripKeyRefsAux_id (f : Nat) :
    ∀ l : List Char, l.contains '%' = false → stripKeyRefsAux f l = l := by
  induction f with
  | zero => intro l h; rfl
  | succ f ih =>
    intro l h
    cases l with
    | nil => rfl
    | cons c rest =>
      rw [List.contains_cons, Bool.or_eq_false_iff] at h
      have hc : ¬c = '%' := by
        intro hh
        subst hh
        simp at h
      unfold stripKeyRefsAux
      simp [hc, ih rest h.2]

theorem before_set_ok_of_noPercent (s : String) (h : noPercentS s = true) :
    before_set_ok s = true := by
  simp only [noPercentS, Bool.not_eq_true'] at h
  unfold before_set_ok stripKeyRefs
  rw [stripDoublePercent_id _ h, stripKeyRefsAux_id _ _ h, h]
  rfl

theorem before_set_ok_of_fieldClean (f : Option String) (hc : fieldClean f = true) :
    pyTruthy f = true → before_set_ok (f.getD "") = true := by
  intro ht
  cases f with
  | none => simp [pyTruthy] at ht
  | some s => exact before_set_ok_of_noPercent s (by simpa [fieldClean] using hc)

theorem interpLoopN_id (lookup : String → Option String) (sect opt : String)
    (deeper : List Char → Except CPError (List Char)) :
    ∀ (f : Nat) (l : List Char), l.contains '%' = false → l.length ≤ f →
      interpLoopN lookup sect opt deeper f l = .ok l := by
  intro f
  induction f with
  | zero =>
    intro l h hf
    have hl : l = [] := List.eq_nil_of_length_eq_zero (Nat.le_zero.mp hf)
    subst hl
    rfl
  | succ f ih =>
    intro l h hf
    cases l with
    | nil => rfl
    | cons c rest =>
      rw [List.contains_cons, Bool.or_eq_false_iff] at h
      have hc : ¬c = '%' := by
        intro hh
        subst hh
        simp at h
      have hr : rest.length ≤ f := by
        simpa using Nat.le_of_succ_le_succ hf
      unfold interpLoopN
      simp [hc, ih rest h.2 hr]

theorem before_get_noPercent (lookup : String → Option String) (sect opt : String)
    (v : String) (h : noPercentS v = true) :
    before_get lookup sect opt v = .ok v := by
  simp only [noPercentS, Bool.not_eq_true'] at h
  unfold before_get
  have h10 : interpN lookup sect opt 10 v.data =
      interpLoopN lookup sect opt (fun w => interpN lookup sect opt 9 w)
        v.data.length v.data := rfl
  rw [h10, interpLoopN_id lookup sect opt _ _ _ h (Nat.le_refl _)]

/-- Effect of one _set_option call on the mapping it targets: store the
string of a truthy value under the lowercased key, remove the lowercased
key for a falsy value. -/
def applyOp (l : List (String × String)) (k : String) (v : Option String) : List (String × String) :=
  if pyTruthy v then aset l (optionxform k) (v.getD "") else aremove l (optionxform k)

theorem alookup_applyOp_self (l : List (String × String)) (k : String) (v : Option String)
    (hx : optionxform k = k) :
    alookup (applyOp l k v) k = if pyTruthy v then v else none := by
  unfold applyOp
  rw [hx]
  by_cases hp : pyTruthy v = true
  · cases v with
    | none => simp [pyTruthy] at hp
    | some s => simp [hp, alookup_aset_self]
  · simp [hp, alookup_aremove_self]

theorem alookup_applyOp_ne (l : List (String × String)) (k key : String) (v : Option String)
    (h : key ≠ optionxform k) : alookup (applyOp l k v) key = alookup l key := by
  unfold applyOp
  by_cases hp : pyTruthy v = true
  · simp [hp, alookup_aset_ne _ _ _ _ h]
  · simp [hp, alookup_aremove_ne _ _ _ h]

theorem set_opt_default_eq (rc : RawConfig) (k : String) (v : Option String)
    (hok : pyTruthy v = true → before_set_ok (v.getD "") = true) :
    set_opt rc DEFAULT_SECTION k v =
      .ok { rc with defaults := applyOp rc.defaults k v } := by
  have hcond : (DEFAULT_SECTION = "" ∨ DEFAULT_SECTION = DEFAULT_SECTION) := Or.inr rfl
  unfold set_opt applyOp RawConfig.set RawConfig.remove_option
  by_cases hp : pyTruthy v = true
  · simp [hp, hcond, hok hp]
  · simp [hp, hcond, Except.map]

theorem set_opt_default_stepE (rc : RawConfig) (k : String) (v : Option String)
    (hok : pyTruthy v = true → before_set_ok (v.getD "") = true) :
    ∃ rc2, set_opt rc DEFAULT_SECTION k v = .ok rc2 ∧
      rc2.defaults = applyOp rc.defaults k v ∧ rc2.sections = rc.sections :=
  ⟨_, set_opt_default_eq rc k v hok, rfl, rfl⟩

theorem set_opt_named_eq (rc : RawConfig) (p k : String) (v : Option String)
    (sect : List (String × String)) (hp0 : p ≠ "") (hp1 : p ≠ DEFAULT_SECTION)
    (hs : alookup rc.sections p = some sect)
    (hok : pyTruthy v = true → before_set_ok (v.getD "") = true) :
    set_opt rc p k v =
      .ok { rc with sections := aset rc.sections p (applyOp sect k v) } := by
  have hcond : ¬(p = "" ∨ p = DEFAULT_SECTION) := by simp [hp0, hp1]
  unfold set_opt applyOp RawConfig.set RawConfig.remove_option
  by_cases hpv : pyTruthy v = true
  · simp [hpv, hcond, hs, hok hpv]
  · simp [hpv, hcond, hs, Except.map]

theorem set_opt_stepE (rc : RawConfig) (p k : String) (v : Option String)
    (cur : List (String × String)) (hp0 : p ≠ "") (hp1 : p ≠ DEFAULT_SECTION)
    (hs : alookup rc.sections p = some cur)
    (hok : pyTruthy v = true → before_set_ok (v.getD "") = true) :
    ∃ rc2, set_opt rc p k v = .ok rc2 ∧
      alookup rc2.sections p = some (applyOp cur k v) ∧ rc2.defaults = rc.defaults :=
  ⟨_, set_opt_named_eq rc p k v cur hp0 hp1 hs hok, alookup_aset_self _ _ _, rfl⟩

theorem create_section_default (rc : RawConfig) :
    create_section_if_absent rc DEFAULT_SECTION = .ok rc := by
  unfold create_section_if_absent
  simp

theorem create_section_spec (rc : RawConfig) (p : String) (hp : p ≠ DEFAULT_SECTION) :
    ∃ rc1 sect, create_section_if_absent rc p = .ok rc1 ∧
      alookup rc1.sections p = some sect ∧ rc1.defaults = rc.defaults := by
  unfold create_section_if_absent RawConfig.add_section
  by_cases hhas : rc.has_section p = true
  · obtain ⟨sect, hsect⟩ := Option.isSome_iff_exists.mp hhas
    exact ⟨rc, sect, by simp [hhas], hsect, rfl⟩
  · have hnone : alookup rc.sections p = none := by
      unfold RawConfig.has_section at hhas
      cases halo : alookup rc.sections p with
      | none => rfl
      | some s =>
        rw [halo] at hhas
        simp at hhas
    refine ⟨{ rc with sections := rc.sections ++ [(p, [])] }, [], ?_, ?_, rfl⟩
    · simp [hhas, hp, RawConfig.has_section, hnone]
    · exact alookup_append_absent _ _ _ hnone

theorem gooie_default_none (rc : RawConfig) (k : String) (hx : optionxform k = k)
    (h : alookup rc.defaults k = none) :
    get_option_if_exists rc DEFAULT_SECTION k = .ok none := by
  unfold get_option_if_exists
  simp [hx, h]

theorem gooie_default_some (rc : RawConfig) (k v : String) (hx : optionxform k = k)
    (h : alookup rc.defaults k = some v) (hv : noPercentS v = true) :
    get_option_if_exists rc DEFAULT_SECTION k = .ok (some v) := by
  unfold get_option_if_exists RawConfig.get
  simp [hx, h, before_get_noPercent _ _ _ _ hv, Except.map]

theorem gooie_named_none (rc : RawConfig) (p k : String) (hp : p ≠ DEFAULT_SECTION)
    (habs : alookup ((alookup rc.sections p).getD []) k = none) :
    get_option_if_exists rc p k = .ok none := by
  unfold get_option_if_exists
  simp [hp, habs]

theorem gooie_named_some (rc : RawConfig) (p k : String)
    (sect : List (String × String)) (v : String) (hp : p ≠ DEFAULT_SECTION)
    (hs : alookup rc.sections p = some sect)
    (hraw : alookup sect k = some v) (hx : optionxform k = k)
    (hv : noPercentS v = true) :
    get_option_if_exists rc p k = .ok (some v) := by
  unfold get_option_if_exists RawConfig.get chainLookup
  simp [hp, hs, hraw, hx, before_get_noPercent _ _ _ _ hv, Except.map]

theorem spark_get_config_valid (ctx : Option (List (String × String))) (c : DatabricksConfig)
    (h : SparkTaskContextConfigProvider.get_config ctx = some c) : c.is_valid = true := by
  cases ctx with
  | none => simp [SparkTaskContextConfigProvider.get_config] at h
  | some props =>
    unfold SparkTaskContextConfigProvider.get_config at h
    dsimp only at h
    split at h
    · cases h
      assumption
    · cases h

theorem env_get_config_valid (env : List (String × String)) (c : DatabricksConfig)
    (h : EnvironmentVariableConfigProvider.get_config env = some c) : c.is_valid = true := by
  unfold EnvironmentVariableConfigProvider.get_config at h
  dsimp only at h
  split at h
  · cases h
    assumption
  · cases h

theorem profile_get_config_valid (p : String) (fs : Option FileStat) (c : DatabricksConfig)
    (h : ProfileConfigProvider.get_config p fs = .ok (some c)) : c.is_valid = true := by
  unfold ProfileConfigProvider.get_config at h
  cases hr : ProfileConfigProvider.readConfig p fs with
  | error e =>
    rw [hr] at h
    cases h
  | ok cfg =>
    rw [hr] at h
    dsimp only at h
    by_cases hv : cfg.is_valid = true
    · rw [if_pos hv] at h
      cases h
      exact hv
    · rw [if_neg hv] at h
      cases h

theorem tryProfile_valid (fs : Option FileStat) (c : DatabricksConfig)
    (h : DefaultConfigProvider.tryProfile fs = .ok (some c)) : c.is_valid = true := by
  unfold DefaultConfigProvider.tryProfile at h
  cases hr : ProfileConfigProvider.get_config DEFAULT_SECTION fs with
  | error e =>
    rw [hr] at h
    cases h
  | ok r =>
    rw [hr] at h
    cases r with
    | none => simp at h
    | some c0 =>
      dsimp only at h
      by_cases hv : c0.is_valid = true
      · rw [if_pos hv] at h
        have hc : c0 = c := by
          simpa using h
        subst hc
        exact hv
      · rw [if_neg hv] at h
        simp at h

theorem tryEnv_valid (w : World) (c : DatabricksConfig)
    (h : DefaultConfigProvider.tryEnv w = .ok (some c)) : c.is_valid = true := by
  unfold DefaultConfigProvider.tryEnv at h
  cases he : EnvironmentVariableConfigProvider.get_config w.env with
  | none =>
    rw [he] at h
    exact tryProfile_valid w.fs c h
  | some c0 =>
    rw [he] at h
    dsimp only at h
    by_cases hv : c0.is_valid = true
    · rw [if_pos hv] at h
      have hc : c0 = c := by
        simpa using h
      subst hc
      exact hv
    · rw [if_neg hv] at h
      exact tryProfile_valid w.fs c h

theorem default_chain_valid (w : World) (c : DatabricksConfig)
    (h : DefaultConfigProvider.get_config w = .ok (some c)) : c.is_valid = true := by
  unfold DefaultConfigProvider.get_config at h
  cases hs : SparkTaskContextConfigProvider.get_config w.taskContext with
  | none =>
    rw [hs] at h
    exact tryEnv_valid w c h
  | some c0 =>
    rw [hs] at h
    dsimp only at h
    by_cases hv : c0.is_valid = true
    · rw [if_pos hv] at h
      have hc : c0 = c := by
        simpa using h
      subst hc
      exact hv
    · rw [if_neg hv] at h
      exact tryEnv_valid w c h

/-- Combined effect of the seven _set_option calls of
update_and_persist_config on the mapping of the written profile. -/
def applyAll (l : List (String × String)) (cfg : DatabricksConfig) : List (String × String) :=
  applyOp (applyOp (applyOp (applyOp (applyOp (applyOp (applyOp l
    HOST cfg.host) USERNAME cfg.username) PASSWORD cfg.password)
    TOKEN cfg.token) REFRESH_TOKEN cfg.refresh_token) INSECURE cfg.insecure)
    JOBS_API_VERSION cfg.jobs_api_version

theorem applyAll_reads (l : List (String × String)) (cfg : DatabricksConfig) :
    alookup (applyAll l cfg) HOST = (if pyTruthy cfg.host then cfg.host else none) ∧
    alookup (applyAll l cfg) USERNAME = (if pyTruthy cfg.username then cfg.username else none) ∧
    alookup (applyAll l cfg) PASSWORD = (if pyTruthy cfg.password then cfg.password else none) ∧
    alookup (applyAll l cfg) TOKEN = (if pyTruthy cfg.token then cfg.token else none) ∧
    alookup (applyAll l cfg) REFRESH_TOKEN = (if pyTruthy cfg.refresh_token then cfg.refresh_token else none) ∧
    alookup (applyAll l cfg) INSECURE = (if pyTruthy cfg.insecure then cfg.insecure else none) ∧
    alookup (applyAll l cfg) JOBS_API_VERSION = (if pyTruthy cfg.jobs_api_version then cfg.jobs_api_version else none) := by
  unfold applyAll
  refine ⟨?_, ?_, ?_, ?_, ?_, ?_, ?_⟩
  · rw [alookup_applyOp_ne _ _ _ _ (by decide), alookup_applyOp_ne _ _ _ _ (by decide),
      alookup_applyOp_ne _ _ _ _ (by decide), alookup_applyOp_ne _ _ _ _ (by decide),
      alookup_applyOp_ne _ _ _ _ (by decide), alookup_applyOp_ne _ _ _ _ (by decide),
      alookup_applyOp_self _ _ _ (by decide)]
  · rw [alookup_applyOp_ne _ _ _ _ (by decide), alookup_applyOp_ne _ _ _ _ (by decide),
      alookup_applyOp_ne _ _ _ _ (by decide), alookup_applyOp_ne _ _ _ _ (by decide),
      alookup_applyOp_ne _ _ _ _ (by decide), alookup_applyOp_self _ _ _ (by decide)]
  · rw [alookup_applyOp_ne _ _ _ _ (by decide), alookup_applyOp_ne _ _ _ _ (by decide),
      alookup_applyOp_ne _ _ _ _ (by decide), alookup_applyOp_ne _ _ _ _ (by decide),
      alookup_applyOp_self _ _ _ (by decide)]
  · rw [alookup_applyOp_ne _ _ _ _ (by decide), alookup_applyOp_ne _ _ _ _ (by decide),
      alookup_applyOp_ne _ _ _ _ (by decide), alookup_applyOp_self _ _ _ (by decide)]
  · rw [alookup_applyOp_ne _ _ _ _ (by decide), alookup_applyOp_ne _ _ _ _ (by decide),
      alookup_applyOp_self _ _ _ (by decide)]
  · rw [alookup_applyOp_ne _ _ _ _ (by decide), alookup_applyOp_self _ _ _ (by decide)]
  · rw [alookup_applyOp_self _ _ _ (by decide)]

theorem overwrite_config_content (fs : Option FileStat) (rc : RawConfig) :
    (overwrite_config fs rc).content = rc := rfl

theorem fetch_some (st : FileStat) : fetch_from_fs (some st) = st.content := rfl

theorem defaultizeProfile_ne_empty (profile : Option String) :
    defaultizeProfile profile ≠ "" := by
  cases profile with
  | none => decide
  | some s =>
    unfold defaultizeProfile
    dsimp only
    by_cases hs : s = ""
    · rw [if_pos hs]
      decide
    · rw [if_neg hs]
      exact hs

theorem read_one_default (rc : RawConfig) (k : String) (f : Option String)
    (hx : optionxform k = k)
    (hl : alookup rc.defaults k = (if pyTruthy f then f else none))
    (hc : fieldClean f = true) :
    get_option_if_exists rc DEFAULT_SECTION k = .ok (if pyTruthy f then f else none) := by
  by_cases hf : pyTruthy f = true
  · obtain ⟨s, hsv⟩ : ∃ s, f = some s := by
      cases f with
      | none => simp [pyTruthy] at hf
      | some s => exact ⟨s, rfl⟩
    subst hsv
    rw [if_pos hf] at hl ⊢
    have hv : noPercentS s = true := by simpa [fieldClean] using hc
    exact gooie_default_some rc k s hx hl hv
  · rw [if_neg hf] at hl ⊢
    exact gooie_default_none rc k hx hl

theorem read_one_named (rc : RawConfig) (p k : String)
    (sect : List (String × String)) (f : Option String)
    (hp : p ≠ DEFAULT_SECTION)
    (hs : alookup rc.sections p = some sect)
    (hl : alookup sect k = (if pyTruthy f then f else none))
    (hx : optionxform k = k)
    (hc : fieldClean f = true) :
    get_option_if_exists rc p k = .ok (if pyTruthy f then f else none) := by
  by_cases hf : pyTruthy f = true
  · obtain ⟨s, hsv⟩ : ∃ s, f = some s := by
      cases f with
      | none => simp [pyTruthy] at hf
      | some s => exact ⟨s, rfl⟩
    subst hsv
    rw [if_pos hf] at hl ⊢
    have hv : noPercentS s = true := by simpa [fieldClean] using hc
    exact gooie_named_some rc p k sect s hp hs hl hx hv
  · rw [if_neg hf] at hl ⊢
    have habs : alookup ((alookup rc.sections p).getD []) k = none := by
      rw [hs]
      simpa using hl
    exact gooie_named_none rc p k hp habs

theorem update_persist_reads (profile : Option String) (cfg : DatabricksConfig)
    (fs : Option FileStat) (hclean : recordClean cfg = true) :
    ∃ st : FileStat, update_and_persist_config profile cfg fs = .ok st ∧
      get_option_if_exists st.content (defaultizeProfile profile) HOST =
        .ok (if pyTruthy cfg.host then cfg.host else none) ∧
      get_option_if_exists st.content (defaultizeProfile profile) USERNAME =
        .ok (if pyTruthy cfg.username then cfg.username else none) ∧
      get_option_if_exists st.content (defaultizeProfile profile) PASSWORD =
        .ok (if pyTruthy cfg.password then cfg.password else none) ∧
      get_option_if_exists st.content (defaultizeProfile profile) TOKEN =
        .ok (if pyTruthy cfg.token then cfg.token else none) ∧
      get_option_if_exists st.content (defaultizeProfile profile) REFRESH_TOKEN =
        .ok (if pyTruthy cfg.refresh_token then cfg.refresh_token else none) ∧
      get_option_if_exists st.content (defaultizeProfile profile) INSECURE =
        .ok (if pyTruthy cfg.insecure then cfg.insecure else none) ∧
      get_option_if_exists st.content (defaultizeProfile profile) JOBS_API_VERSION =
        .ok (if pyTruthy cfg.jobs_api_version then cfg.jobs_api_version else none) := by
  have hcl := hclean
  simp only [recordClean, Bool.and_eq_true] at hcl
  obtain ⟨⟨⟨⟨⟨⟨c1, c2⟩, c3⟩, c4⟩, c5⟩, c6⟩, c7⟩ := hcl
  have k1 := before_set_ok_of_fieldClean cfg.host c1
  have k2 := before_set_ok_of_fieldClean cfg.username c2
  have k3 := before_set_ok_of_fieldClean cfg.password c3
  have k4 := before_set_ok_of_fieldClean cfg.token c4
  have k5 := before_set_ok_of_fieldClean cfg.refresh_token c5
  have k6 := before_set_ok_of_fieldClean cfg.insecure c6
  have k7 := before_set_ok_of_fieldClean cfg.jobs_api_version c7
  have hR := applyAll_reads (fetch_from_fs fs).defaults cfg
  by_cases hp : defaultizeProfile profile = DEFAULT_SECTION
  · obtain ⟨rc2, e1, d1, s1⟩ := set_opt_default_stepE (fetch_from_fs fs) HOST cfg.host k1
    obtain ⟨rc3, e2, d2, s2⟩ := set_opt_default_stepE rc2 USERNAME cfg.username k2
    obtain ⟨rc4, e3, d3, s3⟩ := set_opt_default_stepE rc3 PASSWORD cfg.password k3
    obtain ⟨rc5, e4, d4, s4⟩ := set_opt_default_stepE rc4 TOKEN cfg.token k4
    obtain ⟨rc6, e5, d5, s5⟩ := set_opt_default_stepE rc5 REFRESH_TOKEN cfg.refresh_token k5
    obtain ⟨rc7, e6, d6, s6⟩ := set_opt_default_stepE rc6 INSECURE cfg.insecure k6
    obtain ⟨rc8, e7, d7, s7⟩ := set_opt_default_stepE rc7 JOBS_API_VERSION cfg.jobs_api_version k7
    have hdall : rc8.defaults = applyAll (fetch_from_fs fs).defaults cfg := by
      unfold applyAll
      rw [d7, d6, d5, d4, d3, d2, d1]
    refine ⟨overwrite_config fs rc8, ?_, ?_, ?_, ?_, ?_, ?_, ?_, ?_⟩
    · simp only [update_and_persist_config, hp, create_section_default,
        e1, e2, e3, e4, e5, e6, e7]
    · rw [overwrite_config_content, hp]
      exact read_one_default rc8 HOST cfg.host (by decide) (by rw [hdall]; exact hR.1) c1
    · rw [overwrite_config_content, hp]
      exact read_one_default rc8 USERNAME cfg.username (by decide)
        (by rw [hdall]; exact hR.2.1) c2
    · rw [overwrite_config_content, hp]
      exact read_one_default rc8 PASSWORD cfg.password (by decide)
        (by rw [hdall]; exact hR.2.2.1) c3
    · rw [overwrite_config_content, hp]
      exact read_one_default rc8 TOKEN cfg.token (by decide)
        (by rw [hdall]; exact hR.2.2.2.1) c4
    · rw [overwrite_config_content, hp]
      exact read_one_default rc8 REFRESH_TOKEN cfg.refresh_token (by decide)
        (by rw [hdall]; exact hR.2.2.2.2.1) c5
    · rw [overwrite_config_content, hp]
      exact read_one_default rc8 INSECURE cfg.insecure (by decide)
        (by rw [hdall]; exact hR.2.2.2.2.2.1) c6
    · rw [overwrite_config_content, hp]
      exact read_one_default rc8 JOBS_API_VERSION cfg.jobs_api_version (by decide)
        (by rw [hdall]; exact hR.2.2.2.2.2.2) c7
  · have hne := defaultizeProfile_ne_empty profile
    obtain ⟨rc1, sect0, hcr, hsect, hdef⟩ :=
      create_section_spec (fetch_from_fs fs) _ hp
    have hR0 := applyAll_reads sect0 cfg
    obtain ⟨rc2, e1, h1, d1⟩ := set_opt_stepE rc1 _ HOST cfg.host sect0 hne hp hsect k1
    obtain ⟨rc3, e2, h2, d2⟩ := set_opt_stepE rc2 _ USERNAME cfg.username _ hne hp h1 k2
    obtain ⟨rc4, e3, h3, d3⟩ := set_opt_stepE rc3 _ PASSWORD cfg.password _ hne hp h2 k3
    obtain ⟨rc5, e4, h4, d4⟩ := set_opt_stepE rc4 _ TOKEN cfg.token _ hne hp h3 k4
    obtain ⟨rc6, e5, h5, d5⟩ :=
      set_opt_stepE rc5 _ REFRESH_TOKEN cfg.refresh_token _ hne hp h4 k5
    obtain ⟨rc7, e6, h6, d6⟩ := set_opt_stepE rc6 _ INSECURE cfg.insecure _ hne hp h5 k6
    obtain ⟨rc8, e7, h7, d7⟩ :=
      set_opt_stepE rc7 _ JOBS_API_VERSION cfg.jobs_api_version _ hne hp h6 k7
    have hs8 : alookup rc8.sections (defaultizeProfile profile) = some (applyAll sect0 cfg) := by
      unfold applyAll
      exact h7
    refine ⟨overwrite_config fs rc8, ?_, ?_, ?_, ?_, ?_, ?_, ?_, ?_⟩
    · simp only [update_and_persist_config, hcr, e1, e2, e3, e4, e5, e6, e7]
    · rw [overwrite_config_content]
      exact read_one_named rc8 _ HOST _ cfg.host hp hs8 hR0.1 (by decide) c1
    · rw [overwrite_config_content]
      exact read_one_named rc8 _ USERNAME _ cfg.username hp hs8 hR0.2.1 (by decide) c2
    · rw [overwrite_config_content]
      exact read_one_named rc8 _ PASSWORD _ cfg.password hp hs8 hR0.2.2.1 (by decide) c3
    · rw [overwrite_config_content]
      exact read_one_named rc8 _ TOKEN _ cfg.token hp hs8 hR0.2.2.2.1 (by decide) c4
    · rw [overwrite_config_content]
      exact read_one_named rc8 _ REFRESH_TOKEN _ cfg.refresh_token hp hs8
        hR0.2.2.2.2.1 (by decide) c5
    · rw [overwrite_config_content]
      exact read_one_named rc8 _ INSECURE _ cfg.insecure hp hs8
        hR0.2.2.2.2.2.1 (by decide) c6
    · rw [overwrite_config_content]
      exact read_one_named rc8 _ JOBS_API_VERSION _ cfg.jobs_api_version hp hs8
        hR0.2.2.2.2.2.2 (by decide) c7

/-- C2: with no override installed, get_config consults the sources in
the fixed order task context, environment, profile (default profile),
each consulted only when every earlier one yields no valid record, and
returns the record of the first source that yields one (each source
yields only valid records); in particular the task-context record beats
the environment record and the environment record beats the profile
record; when no source yields a record it fails with the
not-configured error naming no profile. -/
theorem C2_default_chain_order (w : World) :
    (∀ c, SparkTaskContextConfigProvider.get_config w.taskContext = some c →
      get_config none w = .ok c) ∧
    (SparkTaskContextConfigProvider.get_config w.taskContext = none →
      ∀ c, EnvironmentVariableConfigProvider.get_config w.env = some c →
        get_config none w = .ok c) ∧
    (SparkTaskContextConfigProvider.get_config w.taskContext = none →
      EnvironmentVariableConfigProvider.get_config w.env = none →
        ∀ c, ProfileConfigProvider.get_config DEFAULT_SECTION w.fs = .ok (some c) →
          get_config none w = .ok c) ∧
    (SparkTaskContextConfigProvider.get_config w.taskContext = none →
      EnvironmentVariableConfigProvider.get_config w.env = none →
        ProfileConfigProvider.get_config DEFAULT_SECTION w.fs = .ok none →
          get_config none w = .error (.notConfigured none)) ∧
    (∀ c c2, SparkTaskContextConfigProvider.get_config w.taskContext = some c →
      EnvironmentVariableConfigProvider.get_config w.env = some c2 →
        get_config none w = .ok c) ∧
    (SparkTaskContextConfigProvider.get_config w.taskContext = none →
      ∀ c2 c3, EnvironmentVariableConfigProvider.get_config w.env = some c2 →
        ProfileConfigProvider.get_config DEFAULT_SECTION w.fs = .ok (some c3) →
          get_config none w = .ok c2) := by
  refine ⟨?_, ?_, ?_, ?_, ?_, ?_⟩
  · intro c h
    simp [get_config, DefaultConfigProvider.get_config, h, spark_get_config_valid _ _ h]
  · intro hs c h
    simp [get_config, DefaultConfigProvider.get_config, DefaultConfigProvider.tryEnv,
      hs, h, env_get_config_valid _ _ h]
  · intro hs he c h
    have hv := profile_get_config_valid _ _ _ h
    simp [get_config, DefaultConfigProvider.get_config, DefaultConfigProvider.tryEnv,
      DefaultConfigProvider.tryProfile, hs, he, h, hv]
  · intro hs he hp
    simp [get_config, DefaultConfigProvider.get_config, DefaultConfigProvider.tryEnv,
      DefaultConfigProvider.tryProfile, hs, he, hp]
  · intro c c2 h h2
    simp [get_config, DefaultConfigProvider.get_config, h, spark_get_config_valid _ _ h]
  · intro hs c2 c3 h2 h3
    simp [get_config, DefaultConfigProvider.get_config, DefaultConfigProvider.tryEnv,
      hs, h2, env_get_config_valid _ _ h2]

/-- Witness for C2: with no task context, environment holding host and
token, and no config file, get_config returns the environment record. -/
theorem C2_default_chain_order_witness :
    get_config none
      { taskContext := none,
        env := [("DATABRICKS_HOST", "https://x"), ("DATABRICKS_TOKEN", "abc")],
        fs := none } =
      .ok { host := some "https://x", username := none, password := none,
            token := some "abc", refresh_token := none, insecure := none,
            jobs_api_version := none } :=
  (C2_default_chain_order
    { taskContext := none,
      env := [("DATABRICKS_HOST", "https://x"), ("DATABRICKS_TOKEN", "abc")],
      fs := none }).2.1 rfl _ rfl

/-- C3: with an override installed whose get_config returns none, the
top-level get_config fails with the custom-provider error naming the
override, and the result never depends on the default-chain state. -/
theorem C3_override_returned_nothing (p : CustomProvider) (w : World)
    (h : p.result = none) :
    get_config (some p) w = .error (.customProviderReturnedNothing p.name) ∧
    (∀ w2, get_config (some p) w = get_config (some p) w2) := by
  constructor
  · simp [get_config, h]
  · intro w2
    simp [get_config]

/-- Witness for C3: an always-none override makes get_config fail even in
a world where the default chain would return a valid environment
record. -/
theorem C3_override_returned_nothing_witness :
    get_config (some { name := "custom", result := none })
      { taskContext := none,
        env := [("DATABRICKS_HOST", "https://x"), ("DATABRICKS_TOKEN", "abc")],
        fs := none } =
      .error (.customProviderReturnedNothing "custom") :=
  (C3_override_returned_nothing _ _ rfl).1

/-- C10: a record returned by an installed override is passed through
get_config without a validity check, while every record the default chain
returns is valid. -/
theorem C10_override_skips_validity (p : CustomProvider) (w : World) :
    (∀ c, p.result = some c → get_config (some p) w = .ok c) ∧
    (∀ c, DefaultConfigProvider.get_config w = .ok (some c) → c.is_valid = true) := by
  constructor
  · intro c h
    simp [get_config, h]
  · exact fun c h => default_chain_valid w c h

/-- Witness for C10: an override returning the empty (invalid) record is
returned as-is by get_config. -/
theorem C10_override_skips_validity_witness :
    get_config (some { name := "custom", result := some DatabricksConfig.empty })
      { taskContext := none, env := [], fs := none } =
      .ok DatabricksConfig.empty :=
  (C10_override_skips_validity _ _).1 _ rfl

/-- Counterexample to C6 as stated: get_config_for_profile is not
raise-free for every store state; a parseable store whose DEFAULT
section holds token with the value containing a bare percent sign makes
the profile read raise InterpolationSyntaxError (propagated from
ConfigParser.get through _get_option_if_exists). -/
theorem C6_counterexample :
    get_config_for_profile none []
      (some { perm := 0o600,
              content := { defaults := [("token", "a%b")], sections := [] } }) =
      .error (.interpolationSyntaxError "DEFAULT" "token") := rfl

/-- C6 amended: get_config_for_profile returns the environment record if
the environment source yields one, else the profile record if the
profile source yields one, else the empty record; it raises only when
the profile read raises a store (interpolation) error, which
propagates. -/
theorem C6_get_config_for_profile_behavior (profile : Option String)
    (env : List (String × String)) (fs : Option FileStat) :
    (∀ c, EnvironmentVariableConfigProvider.get_config env = some c →
      get_config_for_profile profile env fs = .ok c) ∧
    (EnvironmentVariableConfigProvider.get_config env = none →
      ∀ c, ProfileConfigProvider.get_config (defaultizeProfile profile) fs = .ok (some c) →
        get_config_for_profile profile env fs = .ok c) ∧
    (EnvironmentVariableConfigProvider.get_config env = none →
      ProfileConfigProvider.get_config (defaultizeProfile profile) fs = .ok none →
        get_config_for_profile profile env fs = .ok DatabricksConfig.empty) ∧
    (EnvironmentVariableConfigProvider.get_config env = none →
      ∀ e, ProfileConfigProvider.get_config (defaultizeProfile profile) fs = .error e →
        get_config_for_profile profile env fs = .error e) := by
  refine ⟨?_, ?_, ?_, ?_⟩
  · intro c h
    simp [get_config_for_profile, h, env_get_config_valid _ _ h]
  · intro he c h
    simp [get_config_for_profile, he, profileOrEmpty, h]
  · intro he hp
    simp [get_config_for_profile, he, profileOrEmpty, hp]
  · intro he e h
    simp [get_config_for_profile, he, profileOrEmpty, h]

/-- Witness for C6 amended: no environment variables and an absent
profile named team yield the empty record rather than an error. -/
theorem C6_get_config_for_profile_behavior_witness :
    get_config_for_profile (some "team") [] none = .ok DatabricksConfig.empty :=
  (C6_get_config_for_profile_behavior (some "team") [] none).2.2.1 rfl rfl

/-- C9: for a non-default profile, a key absent from the named section's
own entries reads as none through _get_option_if_exists even when the
DEFAULT section holds it, although the plain ConfigParser get of an
existing section would fall back to the DEFAULT value (shown for a
percent-free stored value, which interpolation returns unchanged). -/
theorem C9_no_default_section_inheritance (rc : RawConfig) (p k : String)
    (hp : p ≠ DEFAULT_SECTION)
    (habs : alookup ((alookup rc.sections p).getD []) k = none) :
    get_option_if_exists rc p k = .ok none ∧
    (∀ sect v, alookup rc.sections p = some sect →
      alookup sect (optionxform k) = none →
      alookup rc.defaults (optionxform k) = some v →
      noPercentS v = true →
      rc.get p k = .ok v) := by
  constructor
  · exact gooie_named_none rc p k hp habs
  · intro sect v hs hxs hv hnp
    unfold RawConfig.get chainLookup
    simp [hp, hs, hxs, hv, before_get_noPercent _ _ _ _ hnp]

/-- Witness for C9: section p lacks the key host, the DEFAULT section
holds it; the module read returns none while the raw get falls back. -/
theorem C9_no_default_section_inheritance_witness :
    get_option_if_exists { defaults := [("host", "d")], sections := [("p", [])] } "p" "host" = .ok none ∧
    RawConfig.get { defaults := [("host", "d")], sections := [("p", [])] } "p" "host" = .ok "d" :=
  ⟨(C9_no_default_section_inheritance
      { defaults := [("host", "d")], sections := [("p", [])] } "p" "host"
      (by decide) rfl).1,
   (C9_no_default_section_inheritance
      { defaults := [("host", "d")], sections := [("p", [])] } "p" "host"
      (by decide) rfl).2 [] "d" rfl rfl rfl rfl⟩

/-- Counterexample to C7 as stated: _set_option is not as described for
every representation, profile, key and value: (a) falsy removal on a
profile whose section is absent raises NoSectionError; (b) a truthy
value containing a bare percent sign raises ValueError from
BasicInterpolation.before_set; (c) a key containing an uppercase letter
is stored lowercased by optionxform while the raw membership check of
the read misses it, so the read returns none rather than the value; (d)
a value containing an escaped double percent is stored raw but reads
back collapsed, not as the value that was set. -/
theorem C7_counterexample :
    (set_opt { defaults := [], sections := [] } "p" "host" none =
      .error (.noSection "p")) ∧
    (set_opt { defaults := [], sections := [("p", [])] } "p" "host" (some "a%b") =
      .error (.invalidInterpolationValue "a%b")) ∧
    (set_opt { defaults := [], sections := [("p", [])] } "p" "Host" (some "x") =
      .ok { defaults := [], sections := [("p", [("host", "x")])] } ∧
     get_option_if_exists { defaults := [], sections := [("p", [("host", "x")])] } "p" "Host" =
      .ok none) ∧
    (set_opt { defaults := [], sections := [("p", [])] } "p" "host" (some "a%%b") =
      .ok { defaults := [], sections := [("p", [("host", "a%%b")])] } ∧
     get_option_if_exists { defaults := [], sections := [("p", [("host", "a%%b")])] } "p" "host" =
      .ok (some "a%b") ∧
     (some "a%b" : Option String) ≠ some "a%%b") :=
  ⟨rfl, rfl, ⟨rfl, rfl⟩, ⟨rfl, rfl, by decide⟩⟩

/-- C7 amended: for the default profile, or a nonempty non-default
profile whose section exists in the representation, and for a key that
optionxform leaves unchanged (a lowercase key, as all seven module keys
are) and a percent-free value: _set_option with a falsy value removes
the key, a subsequent _get_option_if_exists returns none, and repeating
the removal succeeds without error (idempotent); with a truthy value it
sets the key to that value and the read returns exactly it. -/
theorem C7_set_value_semantics (rc : RawConfig) (p k : String) (v : Option String)
    (hp : p = DEFAULT_SECTION ∨
      (p ≠ "" ∧ p ≠ DEFAULT_SECTION ∧ (alookup rc.sections p).isSome = true))
    (hx : optionxform k = k)
    (hcv : fieldClean v = true) :
    (pyTruthy v = false →
      ∃ rc1 rc2, set_opt rc p k v = .ok rc1 ∧
        get_option_if_exists rc1 p k = .ok none ∧
        set_opt rc1 p k v = .ok rc2 ∧
        get_option_if_exists rc2 p k = .ok none) ∧
    (pyTruthy v = true →
      ∃ rc1, set_opt rc p k v = .ok rc1 ∧ get_option_if_exists rc1 p k = .ok v) := by
  have hok := before_set_ok_of_fieldClean v hcv
  rcases hp with hp | ⟨hp0, hp1, hp2⟩
  · subst hp
    constructor
    · intro hv
      obtain ⟨rc1, e1, d1, s1⟩ := set_opt_default_stepE rc k v hok
      obtain ⟨rc2, e2, d2, s2⟩ := set_opt_default_stepE rc1 k v hok
      refine ⟨rc1, rc2, e1, ?_, e2, ?_⟩
      · refine gooie_default_none rc1 k hx ?_
        rw [d1, alookup_applyOp_self _ _ _ hx, hv]
        rfl
      · refine gooie_default_none rc2 k hx ?_
        rw [d2, alookup_applyOp_self _ _ _ hx, hv]
        rfl
    · intro hv
      obtain ⟨s, hsv⟩ : ∃ s, v = some s := by
        cases v with
        | none => simp [pyTruthy] at hv
        | some s => exact ⟨s, rfl⟩
      subst hsv
      obtain ⟨rc1, e1, d1, s1⟩ := set_opt_default_stepE rc k (some s) hok
      refine ⟨rc1, e1, ?_⟩
      refine gooie_default_some rc1 k s hx ?_ (by simpa [fieldClean] using hcv)
      rw [d1, alookup_applyOp_self _ _ _ hx, hv]
      rfl
  · obtain ⟨sect, hsect⟩ := Option.isSome_iff_exists.mp hp2
    constructor
    · intro hv
      obtain ⟨rc1, e1, h1, d1⟩ := set_opt_stepE rc p k v sect hp0 hp1 hsect hok
      obtain ⟨rc2, e2, h2, d2⟩ := set_opt_stepE rc1 p k v (applyOp sect k v) hp0 hp1 h1 hok
      refine ⟨rc1, rc2, e1, ?_, e2, ?_⟩
      · refine gooie_named_none rc1 p k hp1 ?_
        rw [h1]
        simp [alookup_applyOp_self _ _ _ hx, hv]
      · refine gooie_named_none rc2 p k hp1 ?_
        rw [h2]
        simp [alookup_applyOp_self _ _ _ hx, hv]
    · intro hv
      obtain ⟨s, hsv⟩ : ∃ s, v = some s := by
        cases v with
        | none => simp [pyTruthy] at hv
        | some s => exact ⟨s, rfl⟩
      subst hsv
      obtain ⟨rc1, e1, h1, d1⟩ := set_opt_stepE rc p k (some s) sect hp0 hp1 hsect hok
      refine ⟨rc1, e1, ?_⟩
      refine gooie_named_some rc1 p k (applyOp sect k (some s)) s hp1 h1 ?_ hx
        (by simpa [fieldClean] using hcv)
      rw [alookup_applyOp_self _ _ _ hx, hv]
      rfl

/-- Witness for C7 amended: removing the key host with a falsy value from
an existing section succeeds, reads back none, and removing again also
succeeds. -/
theorem C7_set_value_semantics_witness :
    ∃ rc1 rc2,
      set_opt { defaults := [], sections := [("p", [("host", "x")])] } "p" "host" none = .ok rc1 ∧
      get_option_if_exists rc1 "p" "host" = .ok none ∧
      set_opt rc1 "p" "host" none = .ok rc2 ∧
      get_option_if_exists rc2 "p" "host" = .ok none :=
  (C7_set_value_semantics { defaults := [], sections := [("p", [("host", "x")])] }
    "p" "host" none (Or.inr ⟨by decide, by decide, rfl⟩) (by decide) rfl).1 rfl

/-- Counterexample to C8 as stated: the Python check is on truthiness,
not on being None, so the falsy non-None non-provider value 0 is
installed without any type error. -/
theorem C8_counterexample :
    PyValue.pyInt 0 ≠ PyValue.pyNone ∧
    PyValue.isinstanceOfProvider (PyValue.pyInt 0) = false ∧
    set_config_provider PyValue.pyNone (PyValue.pyInt 0) = .ok (PyValue.pyInt 0) ∧
    slotAfterSet PyValue.pyNone (PyValue.pyInt 0) = PyValue.pyInt 0 := by
  refine ⟨by decide, rfl, rfl, rfl⟩

/-- C8 amended: set_config_provider raises the type error exactly for
truthy values that are not DatabricksConfigProvider instances, leaving
the slot unchanged; None, falsy values and provider instances are
installed and then returned by get_config_provider. -/
theorem C8_set_config_provider_typecheck (slot arg : PyValue) :
    (arg.truthy = true → arg.isinstanceOfProvider = false →
      set_config_provider slot arg = .error (.mustBeInstance slot) ∧
      slotAfterSet slot arg = slot) ∧
    (arg.truthy = false ∨ arg.isinstanceOfProvider = true →
      set_config_provider slot arg = .ok arg ∧
      slotAfterSet slot arg = arg ∧
      get_config_provider (slotAfterSet slot arg) = arg) := by
  constructor
  · intro ht hi
    constructor
    · simp [set_config_provider, ht, hi]
    · simp [slotAfterSet, set_config_provider, ht, hi]
  · intro h
    have hcond : ¬(arg.truthy && !arg.isinstanceOfProvider) = true := by
      rcases h with h | h <;> simp [h]
    refine ⟨?_, ?_, ?_⟩
    · simp [set_config_provider, hcond]
    · simp [slotAfterSet, set_config_provider, hcond]
    · simp [get_config_provider, slotAfterSet, set_config_provider, hcond]

/-- Witness for C8 amended: a truthy non-provider string argument raises
and leaves the slot unchanged. -/
theorem C8_set_config_provider_typecheck_witness :
    set_config_provider PyValue.pyNone (PyValue.pyStr "x") =
      .error (.mustBeInstance PyValue.pyNone) ∧
    slotAfterSet PyValue.pyNone (PyValue.pyStr "x") = PyValue.pyNone :=
  (C8_set_config_provider_typecheck PyValue.pyNone (PyValue.pyStr "x")).1 rfl rfl

/-- Counterexample to C5 as stated: the round trip is not exact for
every record: (a) a truthy field containing a bare percent sign makes
update_and_persist_config raise ValueError from
BasicInterpolation.before_set instead of persisting; (b) a field
containing an escaped double percent persists but reads back collapsed
by BasicInterpolation.before_get, not with its exact string value. -/
theorem C5_counterexample :
    (update_and_persist_config none
      { host := some "a%b", username := none, password := none, token := none,
        refresh_token := none, insecure := none, jobs_api_version := none } none =
      .error (.invalidInterpolationValue "a%b")) ∧
    (update_and_persist_config none
      { host := some "h", username := none, password := none, token := some "a%%b",
        refresh_token := none, insecure := none, jobs_api_version := none } none =
      .ok { perm := 0o600,
            content := { defaults := [("host", "h"), ("token", "a%%b")], sections := [] } } ∧
     get_option_if_exists { defaults := [("host", "h"), ("token", "a%%b")], sections := [] }
        DEFAULT_SECTION TOKEN = .ok (some "a%b") ∧
     (some "a%b" : Option String) ≠ some "a%%b") :=
  ⟨rfl, rfl, rfl, by decide⟩

/-- Projection of a record to its truthy fields: what a persisted record
looks like after reload. -/
def truthyFilter (c : DatabricksConfig) : DatabricksConfig :=
  { host := if pyTruthy c.host then c.host else none,
    username := if pyTruthy c.username then c.username else none,
    password := if pyTruthy c.password then c.password else none,
    token := if pyTruthy c.token then c.token else none,
    refresh_token := if pyTruthy c.refresh_token then c.refresh_token else none,
    insecure := if pyTruthy c.insecure then c.insecure else none,
    jobs_api_version := if pyTruthy c.jobs_api_version then c.jobs_api_version else none }

/-- C5 amended: for every record whose field values are free of percent
signs (so interpolation neither rejects them at write time nor rewrites
them at read time), update_and_persist_config succeeds for every profile
and prior file state; reloading the written profile reads back each
truthy field with its exact string value, each falsy (none or empty)
field is absent (reads none), and ProfileConfigProvider yields the
truthy-filtered record exactly when that record is valid. -/
theorem C5_update_then_reload (profile : Option String) (cfg : DatabricksConfig)
    (fs : Option FileStat) (hclean : recordClean cfg = true) :
    ∃ st : FileStat, update_and_persist_config profile cfg fs = .ok st ∧
      get_option_if_exists (fetch_from_fs (some st)) (defaultizeProfile profile) HOST =
        .ok (if pyTruthy cfg.host then cfg.host else none) ∧
      get_option_if_exists (fetch_from_fs (some st)) (defaultizeProfile profile) USERNAME =
        .ok (if pyTruthy cfg.username then cfg.username else none) ∧
      get_option_if_exists (fetch_from_fs (some st)) (defaultizeProfile profile) PASSWORD =
        .ok (if pyTruthy cfg.password then cfg.password else none) ∧
      get_option_if_exists (fetch_from_fs (some st)) (defaultizeProfile profile) TOKEN =
        .ok (if pyTruthy cfg.token then cfg.token else none) ∧
      get_option_if_exists (fetch_from_fs (some st)) (defaultizeProfile profile) REFRESH_TOKEN =
        .ok (if pyTruthy cfg.refresh_token then cfg.refresh_token else none) ∧
      get_option_if_exists (fetch_from_fs (some st)) (defaultizeProfile profile) INSECURE =
        .ok (if pyTruthy cfg.insecure then cfg.insecure else none) ∧
      get_option_if_exists (fetch_from_fs (some st)) (defaultizeProfile profile) JOBS_API_VERSION =
        .ok (if pyTruthy cfg.jobs_api_version then cfg.jobs_api_version else none) ∧
      ProfileConfigProvider.get_config (defaultizeProfile profile) (some st) =
        .ok (if (truthyFilter cfg).is_valid then some (truthyFilter cfg) else none) := by
  obtain ⟨st, hupd, r1, r2, r3, r4, r5, r6, r7⟩ :=
    update_persist_reads profile cfg fs hclean
  have hread : ProfileConfigProvider.readConfig (defaultizeProfile profile) (some st) =
      .ok (truthyFilter cfg) := by
    simp only [ProfileConfigProvider.readConfig, fetch_some, r1, r2, r3, r4, r5, r6, r7,
      truthyFilter]
  refine ⟨st, hupd, ?_, ?_, ?_, ?_, ?_, ?_, ?_, ?_⟩
  · rw [fetch_some]
    exact r1
  · rw [fetch_some]
    exact r2
  · rw [fetch_some]
    exact r3
  · rw [fetch_some]
    exact r4
  · rw [fetch_some]
    exact r5
  · rw [fetch_some]
    exact r6
  · rw [fetch_some]
    exact r7
  · simp only [ProfileConfigProvider.get_config, hread]

/-- Witness for C5 amended: a percent-free host and token record persists
to the default profile of an absent file and reads back exactly. -/
theorem C5_update_then_reload_witness :
    ∃ st : FileStat,
      update_and_persist_config none
        { host := some "h", username := none, password := none, token := some "t",
          refresh_token := none, insecure := none, jobs_api_version := none } none = .ok st ∧
      get_option_if_exists (fetch_from_fs (some st)) (defaultizeProfile none) HOST = .ok (some "h") ∧
      get_option_if_exists (fetch_from_fs (some st)) (defaultizeProfile none) TOKEN = .ok (some "t") := by
  obtain ⟨st, hupd, r1, _, _, r4, _⟩ :=
    C5_update_then_reload none
      { host := some "h", username := none, password := none, token := some "t",
        refresh_token := none, insecure := none, jobs_api_version := none } none rfl
  exact ⟨st, hupd, r1, r4⟩

end DbCfg
